import Mathlib

/-!
Shallow embedding of the konata-dance-rs overlay renderer
(src/overlay.rs and src/renderer.rs).

Modelling conventions:
* `std::time::Instant` values and `Duration`s are modelled as `Nat`
  milliseconds.  `Instant::duration_since` saturates to zero when the
  argument is later than `self`, which is exactly `Nat` subtraction.
* The `Dimensions` uniform stores `f32` values in the source, but every
  value written to it is a `u32` cast to `f32` and the program never does
  arithmetic on them; we keep the underlying `u32` values as `Nat`.
* GPU objects (textures, samplers, bind groups) are modelled by the data
  that determines them: a bind group is the RGBA image it was built from.
* `queue.write_buffer(&self.dimensions_buffer, ...)` is modelled by a
  `dimensions_buffer` field holding the device-memory copy of the uniform;
  a write updates that field.
* `render` returns the list of draw commands recorded in the command
  encoder, or an error when surface acquisition fails (the only fallible
  step); the `acquireOk` flag stands for the platform surface state.
-/

/-- An RGBA image as produced by the image loader: `width`/`height` are the
pixel dimensions returned by `RgbaImage::dimensions()`. -/
structure RgbaImage where
  width : Nat
  height : Nat
deriving DecidableEq

/-- The `Dimensions` uniform struct from src/renderer.rs lines 51-58. -/
structure Dimensions where
  window_width : Nat
  window_height : Nat
  image_width : Nat
  image_height : Nat
deriving DecidableEq

/-- The part of `wgpu::SurfaceConfiguration` that `resize` touches
(src/renderer.rs lines 255-257). -/
structure SurfaceConfiguration where
  width : Nat
  height : Nat
deriving DecidableEq

/-- A drawable resource: one entry of `texture_bind_groups`, i.e. the
texture (identified by its source image), the shared sampler and the
shared uniform binding (src/renderer.rs lines 346-365). -/
structure BindGroup where
  image : RgbaImage
deriving DecidableEq

/-- The state of `Renderer` (src/renderer.rs lines 60-71) relevant to the
claims: the texture cache, the current index, the surface configuration,
the CPU-side uniform and the device-memory copy of the uniform buffer. -/
structure Renderer where
  texture_bind_groups : List BindGroup
  current_texture_index : Nat
  config : SurfaceConfiguration
  current_dimensions : Dimensions
  dimensions_buffer : Dimensions
deriving DecidableEq

/-- `Renderer::resize` (src/renderer.rs lines 250-271): early return when
either dimension is zero; otherwise reconfigure the surface, update the
window half of the uniform and write it to device memory. -/
def Renderer.resize (r : Renderer) (width height : Nat) : Renderer :=
  if width = 0 ∨ height = 0 then r
  else
    let config : SurfaceConfiguration := { width := width, height := height }
    let dims : Dimensions :=
      { r.current_dimensions with window_width := width, window_height := height }
    { r with config := config, current_dimensions := dims, dimensions_buffer := dims }

/-- `Renderer::preload_images` (src/renderer.rs lines 274-373): early
return on an empty list; otherwise clear the cache, store the first
image's dimensions in the uniform and push it to device memory, build one
bind group per image in order, and reset the current index to 0. -/
def Renderer.preload_images (r : Renderer) (images : List RgbaImage) : Renderer :=
  match images with
  | [] => r
  | first :: _ =>
    let dims : Dimensions :=
      { r.current_dimensions with
          image_width := first.width, image_height := first.height }
    { r with
        texture_bind_groups := images.map (fun img => { image := img }),
        current_dimensions := dims,
        dimensions_buffer := dims,
        current_texture_index := 0 }

/-- `Renderer::set_current_texture_index` (src/renderer.rs lines 375-379):
wrap the index modulo the cache size, no-op on an empty cache. -/
def Renderer.set_current_texture_index (r : Renderer) (index : Nat) : Renderer :=
  if r.texture_bind_groups.isEmpty then r
  else { r with current_texture_index := index % r.texture_bind_groups.length }

/-- A command recorded in the render encoder: the single triangle-strip
draw of 4 vertices with the chosen bind group (src/renderer.rs line 414). -/
inductive RenderCmd where
  | draw (bindGroup : BindGroup) (vertexCount : Nat)
deriving DecidableEq

/-- `Renderer::render` (src/renderer.rs lines 381-422): acquire the
surface frame (fallible), and only when the cache is non-empty index into
it (a panic if the index were out of bounds) and record one draw of 4
vertices; the encoder is always submitted and the frame presented.  The
renderer state itself is not mutated. -/
def Renderer.render (r : Renderer) (acquireOk : Bool) :
    Except String (List RenderCmd) :=
  if acquireOk = false then Except.error "failed to acquire surface texture"
  else if r.texture_bind_groups.isEmpty then Except.ok []
  else
    match r.texture_bind_groups[r.current_texture_index]? with
    | some bg => Except.ok [RenderCmd.draw bg 4]
    | none => Except.error "index out of bounds"

/-- The animation/timing state of `OverlayApplication`
(src/overlay.rs lines 14-24): the optional renderer, the instant of the
last frame advance, the fixed frame interval, the current frame index and
the frame count. -/
structure OverlayApp where
  renderer : Option Renderer
  last_frame_time : Nat
  frame_interval : Nat
  current_frame_index : Nat
  frame_count : Nat
deriving DecidableEq

/-- `OverlayApplication::update` (src/overlay.rs lines 66-79), with the
current instant passed explicitly.  Returns the new state and whether a
frame advance happened on this call. -/
def OverlayApp.update (s : OverlayApp) (now : Nat) : OverlayApp × Bool :=
  if s.frame_interval ≤ now - s.last_frame_time then
    if 0 < s.frame_count then
      match s.renderer with
      | some r =>
        ({ s with
            last_frame_time := now,
            current_frame_index := (s.current_frame_index + 1) % s.frame_count,
            renderer := some (r.set_current_texture_index
              ((s.current_frame_index + 1) % s.frame_count)) }, true)
      | none =>
        ({ s with
            last_frame_time := now,
            current_frame_index := (s.current_frame_index + 1) % s.frame_count },
          true)
    else ({ s with last_frame_time := now }, false)
  else (s, false)

/-- The frame-advance step embedded in `update` (src/overlay.rs
lines 71-72), the spec's Frame Selector `advance()`: no-op when
`frame_count == 0`, otherwise increment the index modulo `frame_count`. -/
def OverlayApp.advance (s : OverlayApp) : OverlayApp :=
  if 0 < s.frame_count then
    { s with current_frame_index := (s.current_frame_index + 1) % s.frame_count }
  else s

/-- `n` successive `advance()` calls. -/
def OverlayApp.advanceN (s : OverlayApp) : Nat → OverlayApp
  | 0 => s
  | n + 1 => (s.advanceN n).advance

/-- Run `update` at each tick instant of the list in order, collecting the
advance flag of every call. -/
def OverlayApp.runTicks (s : OverlayApp) : List Nat → OverlayApp × List Bool
  | [] => (s, [])
  | t :: ts =>
    let p := s.update t
    let q := p.1.runTicks ts
    (q.1, p.2 :: q.2)

/-- The observable effect of one `about_to_wait` call: whether a redraw
was requested and the wake instant passed to `set_control_flow`
(`none` when `set_control_flow` is not called). -/
structure WaitEffect where
  redraw_requested : Bool
  wake : Option Nat
deriving DecidableEq

/-- `OverlayApplication::about_to_wait` (src/overlay.rs lines 181-189):
only when the frame interval has already elapsed and a window exists does
it request a redraw and set `ControlFlow::WaitUntil(now + frame_interval)`;
otherwise it does nothing. -/
def OverlayApp.about_to_wait (s : OverlayApp) (hasWindow : Bool) (now : Nat) :
    WaitEffect :=
  if s.frame_interval ≤ now - s.last_frame_time then
    if hasWindow then
      { redraw_requested := true, wake := some (now + s.frame_interval) }
    else { redraw_requested := false, wake := none }
  else { redraw_requested := false, wake := none }

/-! Concrete fixtures used by witnesses and counterexamples. -/

/-- A 64 by 64 test image. -/
def img64 : RgbaImage := { width := 64, height := 64 }

/-- A 32 by 32 test image. -/
def img32 : RgbaImage := { width := 32, height := 32 }

/-- A renderer as produced by `Renderer::new` on an 800 by 600 window
(src/renderer.rs lines 111-130 and 236-247), with a given texture cache. -/
def rendererWith (groups : List BindGroup) : Renderer :=
  { texture_bind_groups := groups
    current_texture_index := 0
    config := { width := 800, height := 600 }
    current_dimensions :=
      { window_width := 800, window_height := 600,
        image_width := 800, image_height := 600 }
    dimensions_buffer :=
      { window_width := 800, window_height := 600,
        image_width := 800, image_height := 600 } }

/-- A renderer that has already preloaded one image: its cache is
non-empty. -/
def loadedRenderer : Renderer := (rendererWith []).preload_images [img64]

/-- An overlay application with `frame_interval` of a given length, the
last advance at instant 0, frame index 0 and a given frame count. -/
def initApp (fc : Nat) : OverlayApp :=
  { renderer := none, last_frame_time := 0, frame_interval := 100,
    current_frame_index := 0, frame_count := fc }

/-! Helper lemmas. -/

/-- `advance` never changes the frame count. -/
theorem OverlayApp.advance_frame_count (s : OverlayApp) :
    s.advance.frame_count = s.frame_count := by
  unfold OverlayApp.advance
  split <;> rfl

/-- `advanceN` never changes the frame count. -/
theorem OverlayApp.advanceN_frame_count (s : OverlayApp) (n : Nat) :
    (s.advanceN n).frame_count = s.frame_count := by
  induction n with
  | zero => rfl
  | succ n ih => rw [OverlayApp.advanceN, OverlayApp.advance_frame_count, ih]

/-- With a positive frame count, `advance` steps the index modulo the
frame count. -/
theorem OverlayApp.advance_index (s : OverlayApp) (h : 0 < s.frame_count) :
    s.advance.current_frame_index =
      (s.current_frame_index + 1) % s.frame_count := by
  unfold OverlayApp.advance
  rw [if_pos h]

/-- Starting from index 0 with a positive frame count, `n` advances land
on `n % frame_count`. -/
theorem OverlayApp.advanceN_index (s : OverlayApp) (h : 0 < s.frame_count)
    (h0 : s.current_frame_index = 0) (n : Nat) :
    (s.advanceN n).current_frame_index = n % s.frame_count := by
  induction n with
  | zero => rw [OverlayApp.advanceN, h0, Nat.zero_mod]
  | succ n ih =>
    rw [OverlayApp.advanceN,
      OverlayApp.advance_index _ (by rw [OverlayApp.advanceN_frame_count]; exact h),
      ih, OverlayApp.advanceN_frame_count]
    exact (Nat.mod_modEq n s.frame_count).add_right 1

/-! Claim theorems. -/

/-- Claim C2: for every positive frame count, starting from index 0, any
number of `advance()` calls keeps the current index in `[0, frame_count)`
and the index is 0 exactly when the number of advances is a multiple of
`frame_count`; when the frame count is 0, `advance()` changes nothing. -/
theorem advance_periodicity :
    (∀ (s : OverlayApp) (n : Nat), 0 < s.frame_count →
      s.current_frame_index = 0 →
      (s.advanceN n).current_frame_index < s.frame_count ∧
      ((s.advanceN n).current_frame_index = 0 ↔ s.frame_count ∣ n)) ∧
    (∀ s : OverlayApp, s.frame_count = 0 → s.advance = s) := by
  constructor
  · intro s n h h0
    rw [OverlayApp.advanceN_index s h h0 n]
    exact ⟨Nat.mod_lt n h, Nat.dvd_iff_mod_eq_zero.symm⟩
  · intro s h
    unfold OverlayApp.advance
    rw [if_neg (by rw [h]; exact Nat.lt_irrefl 0)]

/-- Witness for C2 at frame count 3: after 5 advances the index is below 3
and nonzero (5 is not a multiple of 3), and with frame count 0 `advance`
is the identity. -/
theorem advance_periodicity_witness :
    ((initApp 3).advanceN 5).current_frame_index < (initApp 3).frame_count ∧
    (((initApp 3).advanceN 5).current_frame_index = 0 ↔ (initApp 3).frame_count ∣ 5) ∧
    (initApp 0).advance = initApp 0 :=
  ⟨(advance_periodicity.1 (initApp 3) 5 (by decide) rfl).1,
   (advance_periodicity.1 (initApp 3) 5 (by decide) rfl).2,
   advance_periodicity.2 (initApp 0) rfl⟩

/-- Claim C3: with a non-empty texture cache of size `frame_count`,
`set_current_texture_index i` stores exactly `i % frame_count`. -/
theorem set_index_wraps_modulo :
    ∀ (r : Renderer) (i : Nat), r.texture_bind_groups ≠ [] →
      (r.set_current_texture_index i).current_texture_index =
        i % r.texture_bind_groups.length := by
  intro r i h
  unfold Renderer.set_current_texture_index
  rw [if_neg (by simpa [List.isEmpty_iff] using h)]

/-- Witness for C3: a cache of 5 frames, `set_current_texture_index 7`
yields index `7 % 5 = 2`. -/
theorem set_index_wraps_modulo_witness :
    ((rendererWith (List.replicate 5 { image := img64 })).set_current_texture_index 7).current_texture_index =
      7 % (rendererWith (List.replicate 5 { image := img64 })).texture_bind_groups.length ∧
    ((rendererWith (List.replicate 5 { image := img64 })).set_current_texture_index 7).current_texture_index = 2 :=
  ⟨set_index_wraps_modulo (rendererWith (List.replicate 5 { image := img64 })) 7 (by decide),
   by decide⟩

/-- Claim C4: when the texture cache is empty and the surface frame is
acquired, `render` records no draw command, hits no out-of-bounds panic
branch, and returns without error. -/
theorem render_empty_cache_noop :
    ∀ r : Renderer, r.texture_bind_groups = [] →
      r.render true = Except.ok [] := by
  intro r h
  unfold Renderer.render
  rw [if_neg (by simp), if_pos (by simpa [List.isEmpty_iff] using h)]

/-- Witness for C4: the freshly constructed renderer has an empty cache
and its `render` returns `ok` with no draw commands. -/
theorem render_empty_cache_noop_witness :
    (rendererWith []).render true = Except.ok [] :=
  render_empty_cache_noop (rendererWith []) rfl

/-- Claim C7: `resize` with a zero width or height leaves the whole
renderer state unchanged, in particular the surface configuration and all
four `Dimensions` fields. -/
theorem resize_zero_noop :
    ∀ (r : Renderer) (w h : Nat), w = 0 ∨ h = 0 → r.resize w h = r := by
  intro r w h hwh
  unfold Renderer.resize
  rw [if_pos hwh]

/-- Witness for C7: zero-width and zero-height resizes of a loaded
renderer are both identities. -/
theorem resize_zero_noop_witness :
    loadedRenderer.resize 0 37 = loadedRenderer ∧
    loadedRenderer.resize 37 0 = loadedRenderer :=
  ⟨resize_zero_noop loadedRenderer 0 37 (Or.inl rfl),
   resize_zero_noop loadedRenderer 37 0 (Or.inr rfl)⟩

/-- Claim C8: `resize` with both dimensions positive reconfigures the
surface to the new size and writes the new surface dimensions into the
uniform, leaving the frame (image) dimensions untouched; the updated
uniform is pushed to device memory. -/
theorem resize_positive_updates :
    ∀ (r : Renderer) (w h : Nat), w ≠ 0 → h ≠ 0 →
      (r.resize w h).config = { width := w, height := h } ∧
      (r.resize w h).current_dimensions =
        { window_width := w, window_height := h,
          image_width := r.current_dimensions.image_width,
          image_height := r.current_dimensions.image_height } ∧
      (r.resize w h).dimensions_buffer = (r.resize w h).current_dimensions := by
  intro r w h hw hh
  unfold Renderer.resize
  rw [if_neg (by simp [hw, hh])]
  exact ⟨rfl, rfl, rfl⟩

/-- Witness for C8: after preloading three 64 by 64 frames and resizing to
128 by 128, the uniform reads surface 128 by 128 and frame 64 by 64. -/
theorem resize_positive_updates_witness :
    (((rendererWith []).preload_images [img64, img64, img64]).resize 128 128).config =
      { width := 128, height := 128 } ∧
    (((rendererWith []).preload_images [img64, img64, img64]).resize 128 128).current_dimensions =
      { window_width := 128, window_height := 128,
        image_width := 64, image_height := 64 } ∧
    (((rendererWith []).preload_images [img64, img64, img64]).resize 128 128).dimensions_buffer =
      (((rendererWith []).preload_images [img64, img64, img64]).resize 128 128).current_dimensions := by
  have h := resize_positive_updates ((rendererWith []).preload_images [img64, img64, img64])
    128 128 (by decide) (by decide)
  exact ⟨h.1, h.2.1.trans (by decide), h.2.2⟩

/-- Claim C9: on a non-empty image list, `preload_images` stores the first
image's width and height in the uniform's frame-dimension fields and
pushes the update to device memory; the later images (arbitrary `rest`)
never overwrite those fields. -/
theorem preload_first_image_dims :
    ∀ (r : Renderer) (first : RgbaImage) (rest : List RgbaImage),
      (r.preload_images (first :: rest)).current_dimensions.image_width = first.width ∧
      (r.preload_images (first :: rest)).current_dimensions.image_height = first.height ∧
      (r.preload_images (first :: rest)).dimensions_buffer =
        (r.preload_images (first :: rest)).current_dimensions := by
  intro r first rest
  exact ⟨rfl, rfl, rfl⟩

/-- Claim C10: preloading a non-empty list resets the current texture
index to 0, which is in bounds for the new cache of one bind group per
image; the next successful `render` draws the first frame of the new
sequence. -/
theorem preload_resets_index :
    ∀ (r : Renderer) (first : RgbaImage) (rest : List RgbaImage),
      (r.preload_images (first :: rest)).current_texture_index = 0 ∧
      (r.preload_images (first :: rest)).current_texture_index <
        (r.preload_images (first :: rest)).texture_bind_groups.length ∧
      (r.preload_images (first :: rest)).texture_bind_groups.length =
        (first :: rest).length ∧
      (r.preload_images (first :: rest)).render true =
        Except.ok [RenderCmd.draw { image := first } 4] := by
  intro r first rest
  refine ⟨rfl, by simp [Renderer.preload_images], by simp [Renderer.preload_images], ?_⟩
  unfold Renderer.render
  rw [if_neg (by simp), if_neg (by simp [Renderer.preload_images])]
  simp [Renderer.preload_images]

/-- Counterexample for C5: `preload_images` with an empty list returns
before clearing, so a previously non-empty cache keeps its stale bind
group instead of ending with zero drawable resources. -/
theorem preload_empty_keeps_stale_cache :
    loadedRenderer.texture_bind_groups = [{ image := img64 }] ∧
    (loadedRenderer.preload_images []).texture_bind_groups = [{ image := img64 }] ∧
    ([{ image := img64 }] : List BindGroup) ≠ [] := by
  exact ⟨rfl, rfl, by decide⟩

/-- Claim C5 as amended: on a non-empty list `L`, `preload_images`
rebuilds the cache to exactly one bind group per image of `L`, in order,
with no resources left over from earlier invocations; on an empty list it
returns early and leaves the renderer (hence the cache) unchanged. -/
theorem preload_images_rebuilds_cache :
    ∀ (r : Renderer) (images : List RgbaImage),
      (images ≠ [] →
        (r.preload_images images).texture_bind_groups =
          images.map (fun img => { image := img })) ∧
      (images = [] → r.preload_images images = r) := by
  intro r images
  constructor
  · intro h
    match images with
    | [] => exact absurd rfl h
    | first :: rest => rfl
  · intro h
    subst h
    rfl

/-- Witness for the amended C5: reloading over a non-empty cache yields
exactly the two new bind groups in order, and an empty reload leaves the
loaded renderer untouched. -/
theorem preload_images_rebuilds_cache_witness :
    (loadedRenderer.preload_images [img32, img64]).texture_bind_groups =
      [img32, img64].map (fun img => { image := img }) ∧
    loadedRenderer.preload_images [] = loadedRenderer :=
  ⟨(preload_images_rebuilds_cache loadedRenderer [img32, img64]).1 (by decide),
   (preload_images_rebuilds_cache loadedRenderer []).2 rfl⟩

/-- An idle overlay application: interval 100 ms, last advance at 0,
3 frames loaded. -/
def idleApp : OverlayApp := initApp 3

/-- Counterexample for C6: at `now = 50` the next advance (due at
`last_frame_time + frame_interval = 100`) is still in the future, yet
`about_to_wait` requests no wake at all — not a wake at instant 100. -/
theorem about_to_wait_no_wake_before_deadline :
    50 - idleApp.last_frame_time < idleApp.frame_interval ∧
    (idleApp.about_to_wait true 50).wake = none ∧
    (idleApp.about_to_wait true 50).wake ≠
      some (idleApp.last_frame_time + idleApp.frame_interval) := by
  exact ⟨by decide, rfl, by decide⟩

/-- Claim C6 as amended: while the frame interval has not yet elapsed,
`about_to_wait` requests neither a redraw nor a wake; once the interval
has elapsed (and a window exists) it requests a redraw and a wake at
`now + frame_interval`. -/
theorem about_to_wait_schedule :
    ∀ (s : OverlayApp) (hasWindow : Bool) (now : Nat),
      (now - s.last_frame_time < s.frame_interval →
        s.about_to_wait hasWindow now =
          { redraw_requested := false, wake := none }) ∧
      (s.frame_interval ≤ now - s.last_frame_time → hasWindow = true →
        s.about_to_wait hasWindow now =
          { redraw_requested := true, wake := some (now + s.frame_interval) }) := by
  intro s hw now
  constructor
  · intro h
    unfold OverlayApp.about_to_wait
    rw [if_neg (Nat.not_le.mpr h)]
  · intro h1 h2
    subst h2
    unfold OverlayApp.about_to_wait
    rw [if_pos h1, if_pos rfl]

/-- Witness for the amended C6: at `now = 50` nothing is scheduled, at
`now = 120` a redraw is requested with a wake at `120 + 100 = 220`. -/
theorem about_to_wait_schedule_witness :
    idleApp.about_to_wait true 50 = { redraw_requested := false, wake := none } ∧
    idleApp.about_to_wait true 120 =
      { redraw_requested := true, wake := some (120 + idleApp.frame_interval) } :=
  ⟨(about_to_wait_schedule idleApp true 50).1 (by decide),
   (about_to_wait_schedule idleApp true 120).2 (by decide) rfl⟩

/-- Claim C1: a single `update` call advances the frame index at most once
(the index is unchanged or stepped once modulo the frame count), and in
the concrete scenario with a 100 ms interval, last advance at 0 and ticks
at 0, 50, 120 and 260 ms, exactly the third and fourth ticks advance —
two advances in total, despite more than one whole interval elapsing
before the 260 ms tick. -/
theorem update_advances_at_most_once :
    (∀ (s : OverlayApp) (now : Nat),
      (s.update now).1.current_frame_index = s.current_frame_index ∨
      (s.update now).1.current_frame_index =
        (s.current_frame_index + 1) % s.frame_count) ∧
    (∀ fc : Nat, 0 < fc →
      ((initApp fc).runTicks [0, 50, 120, 260]).2 = [false, false, true, true]) := by
  constructor
  · intro s now
    unfold OverlayApp.update
    by_cases h1 : s.frame_interval ≤ now - s.last_frame_time
    · rw [if_pos h1]
      by_cases h2 : 0 < s.frame_count
      · rw [if_pos h2]
        cases hr : s.renderer with
        | some r => right; rfl
        | none => right; rfl
      · rw [if_neg h2]
        left
        rfl
    · rw [if_neg h1]
      left
      rfl
  · intro fc h
    simp [OverlayApp.runTicks, OverlayApp.update, initApp, h]

/-- Witness for C1: with three frames loaded, a tick at 40 ms leaves the
index unchanged, and the four-tick scenario advances exactly twice, at the
third and fourth ticks. -/
theorem update_advances_at_most_once_witness :
    ((idleApp.update 40).1.current_frame_index = idleApp.current_frame_index ∨
      (idleApp.update 40).1.current_frame_index =
        (idleApp.current_frame_index + 1) % idleApp.frame_count) ∧
    ((initApp 3).runTicks [0, 50, 120, 260]).2 = [false, false, true, true] :=
  ⟨update_advances_at_most_once.1 idleApp 40,
   update_advances_at_most_once.2 3 (by decide)⟩
